import Mathlib

/-!
Shallow embedding of `src/WebSPS.js` (the `SPS` class and its two helper
functions `generateCodeStructure` and `generateJSCode`), together with
theorems settling the frozen claims about the repository.

Modelling conventions, stated once here:
* JavaScript machine values appearing in the register arrays are modelled by
  `JSVal` (the constructor fills the banks with the number `0`, compiled
  statements write the booleans `true` / `false`, and reads of unwritten
  array slots give `undefined`).
* A JS array is modelled as a total function `Int → JSVal` together with the
  construction-time length kept in the controller state: reads inside the
  initialized range give the stored value, reads elsewhere give `undefined`,
  and writes may target any index (as JS property writes do).  Growth of
  `Array.length` caused by out-of-range writes is not tracked; no claim
  depends on it.
* `generateJSCode` in the source builds a JavaScript source *string* that is
  later run with `eval`.  The embedding mirrors the string construction
  fragment-by-fragment: every `JSCode += ...` that contributes to an `if(`
  condition appends the corresponding `CTok` condition token, and every
  fragment that closes a statement emits a `Stmt`.  The meaning of the
  resulting string is given by `parseCond` (a recursive-descent parser for
  exactly the expression grammar the emitted fragments can form, with the
  JavaScript operator precedence `!` > `!==` > `&&` > `||`) and `evalB`.
  A string that is not parsable JavaScript makes `eval` throw a
  `SyntaxError` before executing anything; `evalProgram` models this.
* Timers: `setInterval` returns a truthy id and schedules the callback;
  `clearInterval` cancels the schedule but does not clear the variable
  holding the id.  The embedding keeps two booleans: `runtimeTimer` (is the
  private field `#runtimeTimer` holding a truthy value) and `timerActive`
  (is an interval currently scheduled).
-/

set_option maxRecDepth 4000

namespace WebSPS

/-- JavaScript values relevant to this program: numbers, booleans and
`undefined`. -/
inductive JSVal where
  | num (n : Int)
  | bool (b : Bool)
  | undefined
deriving Repr, DecidableEq

/-- JavaScript truthiness, as used by `if (...)`, `&&`, `||` and `!`. -/
def truthy : JSVal → Bool
  | .num n => n != 0
  | .bool b => b
  | .undefined => false

/-- JavaScript strict inequality `!==`: values of different types are always
strictly unequal. -/
def strictNeq : JSVal → JSVal → Bool
  | .num a, .num b => a != b
  | .bool a, .bool b => a != b
  | .undefined, .undefined => false
  | _, _ => true

/-- The three register banks of the SPS: inputs `#E`, outputs `#A`, flags
`#M` (source lines 40-45). -/
inductive Bank where
  | E
  | A
  | M
deriving Repr, DecidableEq

/-- The contents of the three register arrays. -/
structure Banks where
  E : Int → JSVal
  A : Int → JSVal
  M : Int → JSVal

/-- Read `this.#<bank>[i]`. -/
def Banks.read (bk : Banks) : Bank → Int → JSVal
  | .E, i => bk.E i
  | .A, i => bk.A i
  | .M, i => bk.M i

/-- Write `this.#<bank>[i] = v` (JS array property write: any index is
writable). -/
def Banks.write (bk : Banks) : Bank → Int → JSVal → Banks
  | .E, i, v => { bk with E := fun j => if j = i then v else bk.E j }
  | .A, i, v => { bk with A := fun j => if j = i then v else bk.A j }
  | .M, i, v => { bk with M := fun j => if j = i then v else bk.M j }

/-- `new Array(n).fill(0)`: slots `0 ≤ i < n` hold the number `0`, any other
index reads as `undefined`. -/
def initBank (n : Nat) : Int → JSVal :=
  fun i => if 0 ≤ i ∧ i < (n : Int) then .num 0 else .undefined

/-- One fragment of the condition text of a generated `if( ... )`.  Each
constructor corresponds to one string fragment `generateJSCode` appends while
`openIfBlock` is true: `" && "`, `" || "`, `" !=="`, `" !"`, `" ( "`, `" ) "`,
`"this.#B[i]"`, and the `"; // End of Network\n"` that `EndOfNetwork` inserts
(which, landing inside an `if(` condition, makes the string unparsable). -/
inductive CTok where
  | and
  | or
  | neq
  | not
  | lparen
  | rparen
  | ref (b : Bank) (i : Int)
  | semi
deriving Repr, DecidableEq

/-- Boolean-expression tree of the generated JavaScript condition text, as
the JavaScript grammar parses it. -/
inductive BExpr where
  | ref (b : Bank) (i : Int)
  | and (l r : BExpr)
  | or (l r : BExpr)
  | neq (l r : BExpr)
  | not (e : BExpr)
deriving Repr, DecidableEq

/-- Evaluate a parsed condition against the register banks, with JavaScript
semantics: `&&` / `||` return one of their operands, `!==` is strict
inequality, `!` returns a boolean. -/
def evalB (bk : Banks) : BExpr → JSVal
  | .ref b i => bk.read b i
  | .and l r => let a := evalB bk l; if truthy a then evalB bk r else a
  | .or l r => let a := evalB bk l; if truthy a then a else evalB bk r
  | .neq l r => .bool (strictNeq (evalB bk l) (evalB bk r))
  | .not e => .bool (!truthy (evalB bk e))

mutual

/-- `||` level of the JavaScript expression grammar (lowest precedence among
the operators the generator can emit). -/
def parseOr : Nat → List CTok → Option (BExpr × List CTok)
  | 0, _ => none
  | fuel + 1, ts =>
    match parseAnd fuel ts with
    | some (e, rest) => parseOrTail fuel e rest
    | none => none

/-- Left-associated continuation of the `||` level. -/
def parseOrTail : Nat → BExpr → List CTok → Option (BExpr × List CTok)
  | 0, _, _ => none
  | fuel + 1, acc, .or :: ts =>
    match parseAnd fuel ts with
    | some (e, rest) => parseOrTail fuel (.or acc e) rest
    | none => none
  | _ + 1, acc, ts => some (acc, ts)

/-- `&&` level. -/
def parseAnd : Nat → List CTok → Option (BExpr × List CTok)
  | 0, _ => none
  | fuel + 1, ts =>
    match parseEq fuel ts with
    | some (e, rest) => parseAndTail fuel e rest
    | none => none

/-- Left-associated continuation of the `&&` level. -/
def parseAndTail : Nat → BExpr → List CTok → Option (BExpr × List CTok)
  | 0, _, _ => none
  | fuel + 1, acc, .and :: ts =>
    match parseEq fuel ts with
    | some (e, rest) => parseAndTail fuel (.and acc e) rest
    | none => none
  | _ + 1, acc, ts => some (acc, ts)

/-- `!==` (equality) level. -/
def parseEq : Nat → List CTok → Option (BExpr × List CTok)
  | 0, _ => none
  | fuel + 1, ts =>
    match parseUnary fuel ts with
    | some (e, rest) => parseEqTail fuel e rest
    | none => none

/-- Left-associated continuation of the `!==` level. -/
def parseEqTail : Nat → BExpr → List CTok → Option (BExpr × List CTok)
  | 0, _, _ => none
  | fuel + 1, acc, .neq :: ts =>
    match parseUnary fuel ts with
    | some (e, rest) => parseEqTail fuel (.neq acc e) rest
    | none => none
  | _ + 1, acc, ts => some (acc, ts)

/-- Unary `!` level. -/
def parseUnary : Nat → List CTok → Option (BExpr × List CTok)
  | 0, _ => none
  | fuel + 1, .not :: ts =>
    match parseUnary fuel ts with
    | some (e, rest) => some (.not e, rest)
    | none => none
  | fuel + 1, ts => parsePrimary fuel ts

/-- Primary expressions: a register reference or a parenthesized
subexpression. -/
def parsePrimary : Nat → List CTok → Option (BExpr × List CTok)
  | 0, _ => none
  | _ + 1, .ref b i :: ts => some (.ref b i, ts)
  | fuel + 1, .lparen :: ts =>
    match parseOr fuel ts with
    | some (e, .rparen :: rest) => some (e, rest)
    | _ => none
  | _ + 1, _ => none

end

/-- Parse a full generated condition: the token list must be consumed
entirely, otherwise the generated string is not valid JavaScript. -/
def parseCond (ts : List CTok) : Option BExpr :=
  match parseOr (5 * ts.length + 8) ts with
  | some (e, []) => some e
  | _ => none

/-- The three terminal actions a generated statement can perform
(`=` / `S` / `R`). -/
inductive Action where
  | assign
  | set
  | reset
deriving Repr, DecidableEq

/-- One executable statement of the generated JavaScript program.
`condStmt c act b i` is `if( c ) { this.#b[i] = ...; }` (with an `else`
branch when `act` is `assign`); `uncondStmt act b i` is the unconditional
`this.#b[i] = true;` / `= false;` emitted for a bare `S` / `R` outside any
`if` block (source lines 545-564). -/
inductive Stmt where
  | condStmt (cond : List CTok) (act : Action) (bank : Bank) (idx : Int)
  | uncondStmt (act : Action) (bank : Bank) (idx : Int)
deriving Repr, DecidableEq

/-- Execute one generated statement against the banks (source lines 494-573,
as `eval` runs the emitted text).  A condition that does not parse never
executes — `evalProgram` rejects the whole program in that case — so the
`none` branch here is dead code kept for totality. -/
def execStmt (bk : Banks) : Stmt → Banks
  | .condStmt c act b i =>
    match parseCond c with
    | none => bk
    | some e =>
      match act with
      | .assign =>
        if truthy (evalB bk e) then bk.write b i (.bool true)
        else bk.write b i (.bool false)
      | .set =>
        if truthy (evalB bk e) then bk.write b i (.bool true) else bk
      | .reset =>
        if truthy (evalB bk e) then bk.write b i (.bool false) else bk
  | .uncondStmt act b i =>
    match act with
    | .set => bk.write b i (.bool true)
    | .reset => bk.write b i (.bool false)
    | .assign => bk

/-- Does one statement's condition text parse as JavaScript?  (Parsing is
independent of register values, so this is a purely syntactic check.) -/
def stmtOk : Stmt → Bool
  | .condStmt c _ _ _ => (parseCond c).isSome
  | .uncondStmt _ _ _ => true

/-- One entry of the `commandArray` built by `generateCodeStructure`
(source lines 337, 353-388): `{type: insType, instruction, blockNumber}`,
with `instruction` kept as the raw (uppercased) text exactly as in the
source. -/
structure Command where
  type : Nat
  instruction : String
  blockNumber : Nat
deriving Repr, DecidableEq

/-- Source line 325. -/
def validlogicalOperations : List String := ["U", "O", "X", "NOT", "UN", "ON"]

/-- Source line 326. -/
def validInstructions : List String := ["=", "S", "R"]

/-- Source line 327. -/
def validOperands : List String := ["A", "E", "M"]

/-- `parseInt` on a string of decimal digits. -/
def parseDigits (cs : List Char) : Nat :=
  cs.foldl (fun a c => a * 10 + (c.toNat - 48)) 0

/-- The regex `^(A|E|M)\d+$` of source line 331: one bank letter followed by
one or more ASCII digits and nothing else. -/
def isValidOperandTok (s : String) : Bool :=
  match s.data with
  | c :: rest =>
    validOperands.contains (String.mk [c]) && !rest.isEmpty && rest.all Char.isDigit
  | [] => false

/-- Strip a `//`-to-end-of-line comment from a single line: the per-line
effect of `CodeInput.replace(/\/\/.*$/gm, "")` of source line 344. -/
def stripLineComment : List Char → List Char
  | [] => []
  | '/' :: '/' :: _ => []
  | c :: rest => c :: stripLineComment rest

/-- Split a character list into its `'\n'`-separated lines (`cur` is the
reversed current line). -/
def splitLinesAux : List Char → List Char → List (List Char)
  | [], cur => [cur.reverse]
  | c :: rest, cur =>
    if c = '\n' then cur.reverse :: splitLinesAux rest []
    else splitLinesAux rest (c :: cur)

/-- Remove `//`-to-end-of-line comments (source line 344): the regex has the
`m` flag, so it strips from `//` to each line end, keeping the newlines. -/
def stripCommentsChars (cs : List Char) : List Char :=
  List.intercalate ['\n'] ((splitLinesAux cs []).map stripLineComment)

/-- The characters of the split regex `/([\s\t\n(){}\[\]])/` that are kept
as standalone parts by the filter of source lines 348-350. -/
def isBracketChar (c : Char) : Bool :=
  c = '(' || c = ')' || c = '{' || c = '}' || c = '[' || c = ']'

/-- Split the code text by whitespace and bracket characters, keeping
bracket characters as standalone parts and discarding pure-whitespace
fragments (source lines 347-350).  `cur` is the word accumulated so far. -/
def splitPartsAux : List Char → List Char → List String
  | [], cur => if cur.isEmpty then [] else [String.mk cur.reverse]
  | c :: rest, cur =>
    if c.isWhitespace then
      (if cur.isEmpty then [] else [String.mk cur.reverse]) ++ splitPartsAux rest []
    else if isBracketChar c then
      (if cur.isEmpty then [] else [String.mk cur.reverse]) ++
        [String.mk [c]] ++ splitPartsAux rest []
    else
      splitPartsAux rest (c :: cur)

/-- One `forEach` iteration of the classifier of source lines 353-388.
State: `(commandArray, BracketCount, invalidCommand, reported errors)`. -/
def classifyStep (acc : List Command × Int × Bool × List String) (codePart : String) :
    List Command × Int × Bool × List String :=
  let (cmds, bracketCount, invalid, errs) := acc
  if validlogicalOperations.contains codePart then
    (cmds ++ [⟨1, codePart, cmds.length⟩], bracketCount, invalid, errs)
  else if validInstructions.contains codePart then
    (cmds ++ [⟨2, codePart, cmds.length⟩], bracketCount, invalid, errs)
  else if isValidOperandTok codePart then
    (cmds ++ [⟨3, codePart, cmds.length⟩], bracketCount, invalid, errs)
  else if codePart = "(" || codePart = ")" then
    (cmds ++ [⟨4, codePart, cmds.length⟩],
      (if codePart = "(" then bracketCount + 1 else bracketCount - 1), invalid, errs)
  else
    (cmds, bracketCount, true,
      errs ++ ["generateCodeStructure >> Unknown command or operand found: " ++ codePart])

/-- `generateCodeStructure` (source lines 314-404): validate one network's
IL text and produce its command array, or `none` on failure.  The second
component is the list of messages passed to the error callback.
Case conversion uses `Char.toUpper` (the inputs of interest are ASCII, where
it agrees with JavaScript `toUpperCase`). -/
def generateCodeStructure (CodeInput : String) : Option (List Command) × List String :=
  let chars := stripCommentsChars (CodeInput.data.map Char.toUpper)
  let codeParts := splitPartsAux chars []
  let r := codeParts.foldl classifyStep ([], 0, false, [])
  let invalid := if r.2.1 ≠ 0 then true else r.2.2.1
  let errs :=
    if r.2.1 ≠ 0 then r.2.2.2 ++ ["generateCodeStructure >> Invalid bracket number"]
    else r.2.2.2
  if invalid then (none, errs)
  else (some (r.1 ++ [⟨6, ";", r.1.length⟩]), errs)

/-- `command.instruction[0]` of source line 495: the operand's bank letter
(only applied to regex-validated operand tokens, whose first character is
`A`, `E` or `M`). -/
def bankOfChars : List Char → Bank
  | 'A' :: _ => .A
  | 'E' :: _ => .E
  | _ => .M

/-- `parseInt(command.instruction.slice(1)) - 1` of source line 496: the
0-based register index compiled from a 1-based source operand index. -/
def slicedIndex (s : String) : Int :=
  (parseDigits (s.data.drop 1) : Int) - 1

/-- The mutable closure state of `generateJSCode`'s `forEach` walk (source
lines 414-418), plus the statements and condition fragments the emitted
string denotes so far.  `cond` holds the condition tokens of the currently
open `if(`.  `topBroken` records that an operator fragment was emitted
while no `if(` was open: the source appends it to the string anyway, where
it lands between statements at the top level and makes the whole string
unparsable JavaScript (a statement cannot start with `&&`, `||`, `!==`, and
a leading `!` turns the following generated assignment into the invalid
target `!this.#B[i] = ...`, an early SyntaxError). -/
structure GenState where
  stmts : List Stmt
  cond : List CTok
  lastInstruction : String
  isNewBlock : Bool
  openIfBlock : Bool
  topBroken : Bool
  errors : List String
deriving Repr, DecidableEq

/-- One `forEach` iteration of `generateJSCode` (source lines 420-582),
branch by branch.  A source `return null` inside the callback only ends the
current iteration, so here it maps to returning the (possibly
error-extended) state unchanged. -/
def genStep (g : GenState) (command : Command) : GenState :=
  if command.type = 6 then
    -- `JSCode += "; // End of Network\n"`: inert between statements, but if
    -- an `if(` condition is open the `;` lands inside it (broken JS).
    if g.openIfBlock then { g with cond := g.cond ++ [.semi] } else g
  else if g.isNewBlock then
    if command.type = 1 then
      -- `JSCode += "if( "` (or `"if( !"` for NOT)
      { g with openIfBlock := true, isNewBlock := false,
               cond := if command.instruction = "NOT" then [.not] else [] }
    else if command.type = 2 then
      if command.instruction = "S" then
        { g with lastInstruction := "S", isNewBlock := false }
      else if command.instruction = "R" then
        { g with lastInstruction := "R", isNewBlock := false }
      else
        { g with errors := g.errors ++
            ["generateJSCode >> Missing logical Operand before =: " ++ command.instruction] }
    else if command.type = 4 then
      { g with errors := g.errors ++
          ["generateJSCode >> Bracket without logical Operand: " ++ command.instruction] }
    else
      { g with errors := g.errors ++
          ["generateJSCode >> Not valid as first command: " ++ command.instruction] }
  else if command.type = 1 then
    -- the source appends these fragments to the string unconditionally:
    -- while an `if(` is open they extend its condition, otherwise they land
    -- at the top level of the string, leaving it unparsable (`topBroken`)
    let addOp : List CTok → GenState := fun ops =>
      if g.openIfBlock then { g with cond := g.cond ++ ops }
      else { g with topBroken := true }
    if command.instruction = "U" then addOp [.and]
    else if command.instruction = "O" then addOp [.or]
    else if command.instruction = "X" then addOp [.neq]
    else if command.instruction = "NOT" then addOp [.not]
    else if command.instruction = "UN" then addOp [.and, .not]
    else if command.instruction = "ON" then addOp [.or, .not]
    else
      { g with errors := g.errors ++
          ["generateJSCode >> Unknown logical Operant: " ++ command.instruction] }
  else if command.type = 2 then
    if command.instruction = "S" then { g with lastInstruction := "S" }
    else if command.instruction = "R" then { g with lastInstruction := "R" }
    else { g with lastInstruction := "=" }
  else if command.type = 3 then
    let b := bankOfChars command.instruction.data
    let idx := slicedIndex command.instruction
    if g.openIfBlock then
      if g.lastInstruction = "S" then
        { g with stmts := g.stmts ++ [.condStmt g.cond .set b idx],
                 lastInstruction := "", openIfBlock := false, isNewBlock := true, cond := [] }
      else if g.lastInstruction = "R" then
        { g with stmts := g.stmts ++ [.condStmt g.cond .reset b idx],
                 lastInstruction := "", openIfBlock := false, isNewBlock := true, cond := [] }
      else if g.lastInstruction = "=" then
        { g with stmts := g.stmts ++ [.condStmt g.cond .assign b idx],
                 lastInstruction := "", openIfBlock := false, isNewBlock := true, cond := [] }
      else
        -- `JSCode += "this.#B[i]"`
        { g with cond := g.cond ++ [.ref b idx] }
    else
      if g.lastInstruction = "S" then
        { g with stmts := g.stmts ++ [.uncondStmt .set b idx],
                 lastInstruction := "", isNewBlock := true }
      else if g.lastInstruction = "R" then
        { g with stmts := g.stmts ++ [.uncondStmt .reset b idx],
                 lastInstruction := "", isNewBlock := true }
      else
        { g with errors := g.errors ++
            ["generateJSCode >> Missing logical Operant before =: " ++ command.instruction] }
  else if command.type = 4 then
    if g.openIfBlock then
      { g with cond := g.cond ++ [if command.instruction = "(" then .lparen else .rparen] }
    else g
  else g

/-- The outcome of `generateJSCode`: the statements the emitted string
denotes, whether the string is unparsable JavaScript (a dangling unclosed
`if(` at the end, or a stray operator fragment emitted outside any `if(`
condition), and the messages passed to the error callback. -/
structure GenResult where
  stmts : List Stmt
  broken : Bool
  errors : List String
deriving Repr, DecidableEq

/-- `generateJSCode` (source lines 413-584). -/
def generateJSCode (commandArray : List Command) : GenResult :=
  let g := commandArray.foldl genStep ⟨[], [], "", true, false, false, []⟩
  ⟨g.stmts, g.openIfBlock || g.topBroken, g.errors⟩

/-- The full instance state of the `SPS` class (source lines 26-302).
`SPSCode` is `none` while the private field `#SPSCode` is still `undefined`;
once assigned it holds the statements denoted by the stored string together
with its `broken` flag (`some ([], false)` models the empty string `""`).
`dataReadyPub` models the stray *public* property `this.dataReady` that
`#SPSRuntime` assigns (source line 73) — distinct from the private
`#dataReady` read by `dataAvailable()`. -/
structure SPSState where
  SPSCode : Option (List Stmt × Bool)
  state : Nat
  dataReady : Bool
  dataReadyPub : Option Bool
  runtimeTimer : Bool
  timerActive : Bool
  banks : Banks
  numE : Nat
  numA : Nat
  numM : Nat
  RuntimeCounter : Nat
  SPSCycleTime : Int
  codeInput : Option (String ⊕ List String)

/-- The `SPS` constructor (source lines 60-67): each bank size is capped at
256 and the arrays are zero-filled. -/
def SPS.new (Inputs Outputs Flags : Nat) : SPSState where
  SPSCode := none
  state := 0
  dataReady := false
  dataReadyPub := none
  runtimeTimer := false
  timerActive := false
  banks :=
    ⟨initBank (if Inputs > 256 then 256 else Inputs),
     initBank (if Outputs > 256 then 256 else Outputs),
     initBank (if Flags > 256 then 256 else Flags)⟩
  numE := if Inputs > 256 then 256 else Inputs
  numA := if Outputs > 256 then 256 else Outputs
  numM := if Flags > 256 then 256 else Flags
  RuntimeCounter := 0
  SPSCycleTime := 10
  codeInput := none

/-- `eval(this.#SPSCode)` on a stored program: JavaScript first parses the
whole string — a dangling `if(` or any unparsable condition is a
`SyntaxError` thrown before anything executes — then runs the statements
top to bottom against the live banks. -/
def evalProgram (bk : Banks) (prog : List Stmt × Bool) : Except String Banks :=
  if prog.2 || prog.1.any (fun s => !stmtOk s) then .error "SyntaxError"
  else .ok (prog.1.foldl execStmt bk)

/-- `#SPSRuntime` (source lines 70-74).  The counter is incremented before
`eval`, so it stays incremented even when `eval` throws (second component
`some message`).  On success the source then runs `this.dataReady = true`,
which creates/sets the *public* `dataReady` property — it does not touch the
private `#dataReady` field. -/
def SPSRuntime (st : SPSState) : SPSState × Option String :=
  let st1 := { st with RuntimeCounter := st.RuntimeCounter + 1 }
  match st1.SPSCode with
  | none => ({ st1 with dataReadyPub := some true }, none)
  | some prog =>
    match evalProgram st1.banks prog with
    | .error e => (st1, some e)
    | .ok bk => ({ st1 with banks := bk, dataReadyPub := some true }, none)

/-- `#changeSPSState` (source lines 77-94).  In case 1 the
`setInterval` call is guarded by `if (this.#runtimeTimer)`: only when the
timer variable is already truthy is a new interval created (assigning a new
truthy id and arming the scheduler). -/
def changeSPSState (st : SPSState) (newState : Nat) : SPSState :=
  match newState with
  | 0 => { st with timerActive := false, RuntimeCounter := 0 }
  | 1 =>
    if st.runtimeTimer then { st with runtimeTimer := true, timerActive := true }
    else st
  | 2 => { st with timerActive := false }
  | _ => st

/-- The network-splitting part of `loadCode` (source lines 109-120): a
single string runs `generateCodeStructure` once; an array is `flatMap`-ed
over it, latching `invalidCommand` on any `null` result.  Result:
`(codeArray or null, invalidCommand, error-callback messages)`. -/
def loadCodeParts (ImputCode : String ⊕ List String) :
    Option (List Command) × Bool × List String :=
  match ImputCode with
  | .inl s =>
    match generateCodeStructure s with
    | (some a, e) => (some a, false, e)
    | (none, e) => (none, false, e)
  | .inr arr =>
    let r := arr.foldl
      (fun (acc : List Command × Bool × List String) element =>
        match generateCodeStructure element with
        | (some ret, e) => (acc.1 ++ ret, acc.2.1, acc.2.2 ++ e)
        | (none, e) => (acc.1, true, acc.2.2 ++ e))
      ([], false, [])
    (some r.1, r.2.1, r.2.2)

/-- `loadCode` (source lines 103-130).  Returns the new state, the numeric
return value, and the messages reported through the error callback.  The
success test is `codeArray != null && codeArray.length > 0 &&
!invalidCommand`; on failure `this.#SPSCode = ""` (the empty program). -/
def loadCode (st : SPSState) (ImputCode : String ⊕ List String) :
    SPSState × Int × List String :=
  match loadCodeParts ImputCode with
  | (some arr, false, errs) =>
    if arr.length > 0 then
      ({ st with codeInput := some ImputCode,
                 SPSCode := some ((generateJSCode arr).stmts, (generateJSCode arr).broken) },
        0, errs ++ (generateJSCode arr).errors)
    else
      ({ st with codeInput := some ImputCode, SPSCode := some ([], false) }, -1, errs)
  | (some _, true, errs) =>
    ({ st with codeInput := some ImputCode, SPSCode := some ([], false) }, -1, errs)
  | (none, _, errs) =>
    ({ st with codeInput := some ImputCode, SPSCode := some ([], false) }, -1, errs)

/-- `setCycleTime` (source lines 139-149), with its range test written
exactly as in the source: `delay > 10 || delay < 1000`. -/
def setCycleTime (st : SPSState) (delay : Int) : SPSState × Int :=
  if delay > 10 ∨ delay < 1000 then ({ st with SPSCycleTime := delay }, 0)
  else (st, -1)

/-- `setFlags` (source lines 157-164).  Its first statement is
`dataReady = false;` — an assignment to an undeclared identifier (the `#` of
the private field is missing).  Class bodies are strict-mode code, so this
throws a `ReferenceError` before the copy loop runs: the method never
modifies the state and never returns. -/
def setFlags (_st : SPSState) (_flags : List JSVal) : Except String (SPSState × Int) :=
  .error "ReferenceError: dataReady is not defined"

/-- `setInputs` (source lines 172-179): clears the private `#dataReady`
flag, then copies `inputs[i]` into `#E[i]` for every `i < #E.length`
(missing entries of the caller's array read as `undefined`). -/
def setInputs (st : SPSState) (inputs : List JSVal) : SPSState × Int :=
  let newE : Int → JSVal := fun j =>
    if 0 ≤ j ∧ j < (st.numE : Int) then inputs.getD j.toNat .undefined else st.banks.E j
  ({ st with dataReady := false, banks := { st.banks with E := newE } }, 0)

/-- `getInputs` (source lines 187-194): copies the first **8** entries of
the input bank (the loop bound is the literal 8, not `#E.length`) into a
fresh array. -/
def getInputs (st : SPSState) : List JSVal :=
  (List.range 8).map (fun i : Nat => st.banks.E (i : Int))

/-- `getFlags` (source lines 201-208): copies the whole flag bank into a
fresh array. -/
def getFlags (st : SPSState) : List JSVal :=
  (List.range st.numM).map (fun i : Nat => st.banks.M (i : Int))

/-- `getOutputs` (source lines 215-221): when the data is stale and the SPS
is running it first invokes `#SPSRuntime` (the catch-up scan), then returns
`this.#A`.  The source returns the live array object itself; the embedding
returns its current contents (reference aliasing is not representable in a
pure model).  An exception from the catch-up scan propagates. -/
def getOutputs (st : SPSState) : SPSState × Except String (List JSVal) :=
  if !st.dataReady && st.state == 1 then
    match SPSRuntime st with
    | (st', none) => (st', .ok ((List.range st'.numA).map (fun i : Nat => st'.banks.A (i : Int))))
    | (st', some e) => (st', .error e)
  else (st, .ok ((List.range st.numA).map (fun i : Nat => st.banks.A (i : Int))))

/-- `getState` (source lines 228-230). -/
def getState (st : SPSState) : Nat :=
  st.state

/-- `getRuntimeCounter` (source lines 237-239). -/
def getRuntimeCounter (st : SPSState) : Nat :=
  st.RuntimeCounter

/-- `start` (source lines 247-253). -/
def start (st : SPSState) : SPSState × Int :=
  if st.state == 1 then (st, -1)
  else (changeSPSState { st with state := 1 } 1, 0)

/-- `stop` (source lines 260-274): zeroes all three banks (`fill(0)` over
each array's construction-time range), then transitions to state 0. -/
def stop (st : SPSState) : SPSState × Int :=
  if st.state == 0 then (st, -1)
  else
    (changeSPSState
      { st with state := 0,
                banks := ⟨initBank st.numE, initBank st.numA, initBank st.numM⟩ } 0, 0)

/-- `pause` (source lines 281-292). -/
def pause (st : SPSState) : SPSState × Int :=
  if st.state == 2 then (st, -1)
  else (changeSPSState { st with state := 2 } 2, 0)

/-- `dataAvailable` (source lines 299-301): reads the private `#dataReady`
field. -/
def dataAvailable (st : SPSState) : Bool :=
  st.dataReady

/-- States reachable from a freshly constructed `SPS` instance through the
public API (`setFlags` throws before mutating anything, and the remaining
getters are pure, so neither contributes a transition). -/
inductive Reach : SPSState → Prop where
  | init : ∀ nI nO nF, Reach (SPS.new nI nO nF)
  | load : ∀ st inp, Reach st → Reach (loadCode st inp).1
  | cycleTime : ∀ st d, Reach st → Reach (setCycleTime st d).1
  | inputs : ∀ st v, Reach st → Reach (setInputs st v).1
  | startT : ∀ st, Reach st → Reach (start st).1
  | stopT : ∀ st, Reach st → Reach (stop st).1
  | pauseT : ∀ st, Reach st → Reach (pause st).1
  | runtime : ∀ st, Reach st → Reach (SPSRuntime st).1
  | outputs : ∀ st, Reach st → Reach (getOutputs st).1

theorem loadCode_preserves_timer (st : SPSState) (inp : String ⊕ List String) :
    (loadCode st inp).1.runtimeTimer = st.runtimeTimer ∧
      (loadCode st inp).1.timerActive = st.timerActive := by
  constructor <;> (unfold loadCode; split <;> (try split) <;> simp)

theorem setCycleTime_preserves_timer (st : SPSState) (d : Int) :
    (setCycleTime st d).1.runtimeTimer = st.runtimeTimer ∧
      (setCycleTime st d).1.timerActive = st.timerActive := by
  constructor <;> (unfold setCycleTime; split <;> simp)

theorem SPSRuntime_preserves_timer (st : SPSState) :
    (SPSRuntime st).1.runtimeTimer = st.runtimeTimer ∧
      (SPSRuntime st).1.timerActive = st.timerActive := by
  constructor <;> (unfold SPSRuntime; dsimp only; split <;> (try split) <;> simp)

theorem getOutputs_preserves_timer (st : SPSState) :
    (getOutputs st).1.runtimeTimer = st.runtimeTimer ∧
      (getOutputs st).1.timerActive = st.timerActive := by
  unfold getOutputs
  split
  · split
    · next st' heq =>
      have h := SPSRuntime_preserves_timer st
      rw [heq] at h
      simpa using h
    · next st' e heq =>
      have h := SPSRuntime_preserves_timer st
      rw [heq] at h
      simpa using h
  · exact ⟨rfl, rfl⟩

theorem changeSPSState_not_armed (st : SPSState) (n : Nat)
    (h1 : st.runtimeTimer = false) (h2 : st.timerActive = false) :
    (changeSPSState st n).runtimeTimer = false ∧
      (changeSPSState st n).timerActive = false := by
  unfold changeSPSState
  split <;> simp [h1, h2]

/-- In every state reachable through the public API, the `#runtimeTimer`
variable is still falsy and no interval is scheduled: the `setInterval` of
source line 86 is guarded by `if (this.#runtimeTimer)`, and that guard is
the only place `#runtimeTimer` is ever assigned, so it can never become
truthy and the periodic scheduler is never armed. -/
theorem reach_not_armed (st : SPSState) (h : Reach st) :
    st.runtimeTimer = false ∧ st.timerActive = false := by
  induction h with
  | init nI nO nF => exact ⟨rfl, rfl⟩
  | load st inp _ ih =>
    have hp := loadCode_preserves_timer st inp
    exact ⟨hp.1.trans ih.1, hp.2.trans ih.2⟩
  | cycleTime st d _ ih =>
    have hp := setCycleTime_preserves_timer st d
    exact ⟨hp.1.trans ih.1, hp.2.trans ih.2⟩
  | inputs st v _ ih => exact ⟨ih.1, ih.2⟩
  | startT st _ ih =>
    unfold start
    split
    · exact ih
    · exact changeSPSState_not_armed _ _ ih.1 ih.2
  | stopT st _ ih =>
    unfold stop
    split
    · exact ih
    · exact changeSPSState_not_armed _ _ ih.1 ih.2
  | pauseT st _ ih =>
    unfold pause
    split
    · exact ih
    · exact changeSPSState_not_armed _ _ ih.1 ih.2
  | runtime st _ ih =>
    have hp := SPSRuntime_preserves_timer st
    exact ⟨hp.1.trans ih.1, hp.2.trans ih.2⟩
  | outputs st _ ih =>
    have hp := getOutputs_preserves_timer st
    exact ⟨hp.1.trans ih.1, hp.2.trans ih.2⟩

/-- The result of loading the single network `"= A1"` (a bare `=` with no
preceding logic operator). -/
def c1BareAssign : SPSState × Int × List String :=
  loadCode (SPS.new 64 64 64) (.inl ("= A1"))

/-- The result of loading the single network `"U E1"` (an open statement
still unterminated at end of network). -/
def c1Incomplete : SPSState × Int × List String :=
  loadCode (SPS.new 64 64 64) (.inl ("U E1"))

/-- Claim C1, evaluated at its failing inputs.  Statement-compiler errors do
not fail the load: loading `"= A1"` reports `MissingCondition`-style errors
through the error callback yet returns success (0) and installs a program,
and loading the incomplete statement `"U E1"` returns success (0) with no
error reported at all while installing a program whose generated string is
broken JavaScript.  Only lexer-level errors make `loadCode` return -1. -/
theorem C1_generateJSCode_errors_do_not_fail_load :
    c1BareAssign.2.1 = 0 ∧
      c1BareAssign.2.2 =
        ["generateJSCode >> Missing logical Operand before =: =",
         "generateJSCode >> Not valid as first command: A1"] ∧
      c1BareAssign.1.SPSCode = some ([], false) ∧
      c1Incomplete.2.1 = 0 ∧
      c1Incomplete.2.2 = [] ∧
      c1Incomplete.1.SPSCode = some ([], true) :=
  ⟨rfl, rfl, rfl, rfl, rfl, rfl⟩

/-- The state after a successful load of `"U E1\n= A1"`. -/
def c2Loaded : SPSState :=
  (loadCode (SPS.new 64 64 64) (.inl ("U E1\n= A1"))).1

/-- The result of a subsequent failing load (unknown token `FOO`) on top of
that state. -/
def c2FailedReload : SPSState × Int × List String :=
  loadCode c2Loaded (.inl ("U E1 FOO"))

/-- Counterexample to claim C2: after a successful load, a failing load does
**not** leave the previously installed compiled program in place — it
overwrites `#SPSCode` with the empty string (source line 127). -/
theorem C2_failed_load_clears_program_cex :
    c2Loaded.SPSCode =
        some ([.condStmt [.ref .E 0] .assign .A 0], false) ∧
      c2FailedReload.2.1 = -1 ∧
      c2FailedReload.1.SPSCode = some ([], false) ∧
      c2FailedReload.1.SPSCode ≠ c2Loaded.SPSCode :=
  ⟨rfl, rfl, rfl, by decide⟩

/-- Claim C2 as amended: every `loadCode` call that fails clears the
compiled program to the empty program (`this.#SPSCode = ""`), discarding any
previously installed program. -/
theorem C2_failed_load_clears_program (st : SPSState) (inp : String ⊕ List String)
    (h : (loadCode st inp).2.1 = -1) :
    (loadCode st inp).1.SPSCode = some ([], false) := by
  unfold loadCode at h ⊢
  rcases hP : loadCodeParts inp with ⟨oa, inv, errs⟩
  rw [hP] at h
  rcases oa with _ | a
  · simp
  · rcases inv with _ | _
    · by_cases hl : a.length > 0
      · simp [hl] at h
      · simp [hl]
    · simp

/-- Witness for C2: the amended theorem applied to a concrete failing load. -/
theorem C2_failed_load_clears_program_witness :
    (loadCode c2Loaded (.inl ("U E1 FOO"))).1.SPSCode = some ([], false) :=
  C2_failed_load_clears_program c2Loaded (.inl ("U E1 FOO")) rfl

/-- Claim C3, evaluated against the code.  `start()` on a fresh (Stopped)
instance does return 0 and set the state to Running, and `start()` while
Running returns -1 unchanged — but the periodic scheduler is **never**
armed: `setInterval` (source line 86) is guarded by `if (this.#runtimeTimer)`,
which is the only assignment to `#runtimeTimer`, so in every reachable state
(including after pause/start resume cycles) no interval is ever scheduled. -/
theorem C3_start_never_arms_scheduler :
    (start (SPS.new 64 64 64)).2 = 0 ∧
      (start (SPS.new 64 64 64)).1.state = 1 ∧
      (start (SPS.new 64 64 64)).1.timerActive = false ∧
      (∀ st : SPSState, st.state = 1 → start st = (st, -1)) ∧
      (∀ st : SPSState, Reach st → st.runtimeTimer = false ∧ st.timerActive = false) := by
  refine ⟨rfl, rfl, rfl, ?_, reach_not_armed⟩
  intro st h
  simp [start, h]

/-- Witness for C3: starting while already Running is a no-op returning -1,
and the state reached by `start` from a fresh instance has no armed
scheduler. -/
theorem C3_start_never_arms_scheduler_witness :
    start ((start (SPS.new 64 64 64)).1) = ((start (SPS.new 64 64 64)).1, -1) ∧
      (start (SPS.new 64 64 64)).1.timerActive = false :=
  ⟨C3_start_never_arms_scheduler.2.2.2.1 _ rfl,
   (C3_start_never_arms_scheduler.2.2.2.2 _
      (Reach.startT _ (Reach.init 64 64 64))).2⟩

/-- Claim C4: per-statement action semantics of a compiled statement whose
condition text parses to `e`.  `=` writes the condition result (true or
false either way); `S` writes true when the condition is truthy and leaves
the target bank completely unchanged otherwise; `R` writes false when
truthy and leaves the bank unchanged otherwise. -/
theorem C4_statement_action_semantics (bk : Banks) (c : List CTok) (b : Bank) (i : Int)
    (e : BExpr) (hp : parseCond c = some e) :
    execStmt bk (.condStmt c .assign b i) = bk.write b i (.bool (truthy (evalB bk e))) ∧
      (truthy (evalB bk e) = true →
        execStmt bk (.condStmt c .set b i) = bk.write b i (.bool true)) ∧
      (truthy (evalB bk e) = false → execStmt bk (.condStmt c .set b i) = bk) ∧
      (truthy (evalB bk e) = true →
        execStmt bk (.condStmt c .reset b i) = bk.write b i (.bool false)) ∧
      (truthy (evalB bk e) = false → execStmt bk (.condStmt c .reset b i) = bk) := by
  refine ⟨?_, ?_, ?_, ?_, ?_⟩
  · cases ht : truthy (evalB bk e) <;> simp [execStmt, hp, ht]
  all_goals intro h
  all_goals simp [execStmt, hp, h]

/-- Concrete banks for the C4 witness: all inputs truthy (the number 1),
outputs and flags falsy (the number 0). -/
def c4Banks : Banks :=
  ⟨fun _ => .num 1, fun _ => .num 0, fun _ => .num 0⟩

/-- Witness for C4 at concrete statements: a true `U E1` condition makes `S`
write true, and a false `U M1` condition leaves the banks untouched. -/
theorem C4_statement_action_semantics_witness :
    execStmt c4Banks (.condStmt [.ref .E 0] .set .A 0) = c4Banks.write .A 0 (.bool true) ∧
      execStmt c4Banks (.condStmt [.ref .M 0] .set .A 0) = c4Banks :=
  ⟨(C4_statement_action_semantics c4Banks [.ref .E 0] .A 0 (.ref .E 0) rfl).2.1 rfl,
   (C4_statement_action_semantics c4Banks [.ref .M 0] .A 0 (.ref .M 0) rfl).2.2.1 rfl⟩

/-- The two networks of the multi-network scenario: network A sets `M1`,
network B's condition reads `M1`. -/
def c5Nets : List String := ["U E1\nS M1", "U M1\n= A1"]

/-- The controller after loading the two networks. -/
def c5Loaded : SPSState :=
  (loadCode (SPS.new 64 64 64) (.inr c5Nets)).1

/-- The controller after additionally setting input `E1` truthy. -/
def c5WithInputs : SPSState :=
  (setInputs c5Loaded [JSVal.num 1]).1

/-- Claim C5: a scan is a left fold of `execStmt` over the compiled
statements, so each statement executes exactly once, in order, against the
banks as mutated by all earlier statements of the same scan (single-buffer
semantics); networks supplied as a sequence compile to the concatenation of
their command arrays in the supplied order; and concretely, network B
observes network A's same-scan write of `M1`. -/
theorem C5_scan_order_and_visibility :
    (∀ (bk : Banks) (s : Stmt) (rest : List Stmt),
        (s :: rest).foldl execStmt bk = rest.foldl execStmt (execStmt bk s)) ∧
      (∀ (s1 s2 : String) (c1 c2 : List Command) (e1 e2 : List String),
        generateCodeStructure s1 = (some c1, e1) →
        generateCodeStructure s2 = (some c2, e2) →
        loadCodeParts (.inr [s1, s2]) = (some (c1 ++ c2), false, e1 ++ e2)) ∧
      (loadCode (SPS.new 64 64 64) (.inr c5Nets)).2.1 = 0 ∧
      c5Loaded.SPSCode =
        some ([.condStmt [.ref .E 0] .set .M 0,
               .condStmt [.ref .M 0] .assign .A 0], false) ∧
      (SPSRuntime c5WithInputs).1.banks.M 0 = .bool true ∧
      (SPSRuntime c5WithInputs).1.banks.A 0 = .bool true := by
  refine ⟨fun bk s rest => rfl, ?_, rfl, rfl, rfl, rfl⟩
  intro s1 s2 c1 c2 e1 e2 h1 h2
  simp [loadCodeParts, h1, h2]

/-- Witness for C5: the network-concatenation conjunct applied to the two
concrete networks. -/
theorem C5_scan_order_and_visibility_witness :
    loadCodeParts (.inr c5Nets) =
      (some ((generateCodeStructure ("U E1\nS M1")).1.getD [] ++
          (generateCodeStructure ("U M1\n= A1")).1.getD []),
        false, ([] : List String) ++ ([] : List String)) :=
  C5_scan_order_and_visibility.2.1 _ _ _ _ _ _ rfl rfl

/-- The controller after loading `"U E1\n= A1"`. -/
def c6Loaded : SPSState :=
  (loadCode (SPS.new 64 64 64) (.inl ("U E1\n= A1"))).1

/-- Claim C6, evaluated at its failing input.  Every scan increments the
counter by one, but it never sets the freshness flag read by
`dataAvailable()`: `#SPSRuntime`'s last line is `this.dataReady = true`,
which sets a stray **public** property instead of the private `#dataReady`
field.  Concretely, after a completed scan `dataAvailable()` is still
false. -/
theorem C6_scan_increments_counter_but_not_freshness :
    (∀ st : SPSState,
        (SPSRuntime st).1.RuntimeCounter = st.RuntimeCounter + 1 ∧
          (SPSRuntime st).1.dataReady = st.dataReady) ∧
      (SPSRuntime c6Loaded).2 = none ∧
      (SPSRuntime c6Loaded).1.RuntimeCounter = 1 ∧
      dataAvailable (SPSRuntime c6Loaded).1 = false ∧
      (SPSRuntime c6Loaded).1.dataReadyPub = some true := by
  refine ⟨?_, rfl, rfl, rfl, rfl⟩
  intro st
  constructor <;> (unfold SPSRuntime; dsimp only; split <;> (try split) <;> simp)

/-- Claim C7, evaluated against the code.  `setFlags` throws a
`ReferenceError` on every call — its first statement assigns the undeclared
identifier `dataReady` (the `this.#` is missing), and class bodies are
strict-mode code — so it neither writes the flag bank nor returns 0.
`setInputs` does behave as the claim says for the input bank. -/
theorem C7_setFlags_throws_setInputs_overwrites :
    (∀ (st : SPSState) (flags : List JSVal),
        setFlags st flags = .error "ReferenceError: dataReady is not defined") ∧
      (∀ (st : SPSState) (inputs : List JSVal),
        (setInputs st inputs).2 = 0 ∧
          (setInputs st inputs).1.dataReady = false ∧
          ∀ i : Nat, i < st.numE →
            (setInputs st inputs).1.banks.E (i : Int) = inputs.getD i .undefined) := by
  refine ⟨fun st flags => rfl, fun st inputs => ⟨rfl, rfl, ?_⟩⟩
  intro i hi
  show (if 0 ≤ (i : Int) ∧ (i : Int) < (st.numE : Int)
      then inputs.getD ((i : Int)).toNat .undefined else st.banks.E i) = inputs.getD i .undefined
  rw [if_pos ⟨Int.ofNat_nonneg i, by exact_mod_cast hi⟩]
  simp

/-- Witness for C7: the throwing call and a concrete positional overwrite. -/
theorem C7_setFlags_throws_setInputs_overwrites_witness :
    setFlags (SPS.new 64 64 64) [] = .error "ReferenceError: dataReady is not defined" ∧
      (setInputs (SPS.new 64 64 64) [JSVal.num 1]).1.banks.E ((0 : Nat) : Int) =
        [JSVal.num 1].getD 0 .undefined :=
  ⟨C7_setFlags_throws_setInputs_overwrites.1 _ _,
   (C7_setFlags_throws_setInputs_overwrites.2 _ _).2.2 0 (by decide)⟩

/-- The controller after loading `"U E1\n= A999"`. -/
def c8Loaded : SPSState :=
  (loadCode (SPS.new 64 64 64) (.inl ("U E1\n= A999"))).1

/-- Counterexample to claim C8: the lexer's regex validates only the
operand's lexical shape, not its range.  `loadCode` accepts `"U E1\n= A999"`
on a controller with 64 outputs, compiling a target index 998, and the scan
then actually writes output slot 998 — an access far outside the bank's
bounds is reachable at runtime. -/
theorem C8_lexer_allows_out_of_bounds_cex :
    (loadCode (SPS.new 64 64 64) (.inl ("U E1\n= A999"))).2.1 = 0 ∧
      c8Loaded.SPSCode = some ([.condStmt [.ref .E 0] .assign .A 998], false) ∧
      c8Loaded.numA = 64 ∧
      (SPS.new 64 64 64).banks.A 998 = .undefined ∧
      (SPSRuntime c8Loaded).1.banks.A 998 = .bool false ∧
      ¬(998 : Int) < (64 : Int) :=
  ⟨rfl, rfl, rfl, by decide, by decide, by decide⟩

/-- Claim C8 as amended: a compiled operand access targets index
`digits - 1` for source text `B<digits>`, which lies inside a bank of
`size` registers exactly when `1 ≤ digits ≤ size`; `loadCode` accepts
programs violating this on both sides (`E0` compiles to index -1, `A999`
to 998), so out-of-bounds accesses are reachable for accepted programs. -/
theorem C8_access_bounds_characterization :
    (∀ (s : String) (size : Nat),
        (0 ≤ slicedIndex s ∧ slicedIndex s < (size : Int)) ↔
          (1 ≤ parseDigits (s.data.drop 1) ∧ parseDigits (s.data.drop 1) ≤ size)) ∧
      (loadCode (SPS.new 64 64 64) (.inl ("U E0\n= A999"))).2.1 = 0 ∧
      (loadCode (SPS.new 64 64 64) (.inl ("U E0\n= A999"))).1.SPSCode =
        some ([.condStmt [.ref .E (-1)] .assign .A 998], false) := by
  refine ⟨?_, rfl, rfl⟩
  intro s size
  unfold slicedIndex
  omega

/-- `getD` of a mapped range. -/
theorem getD_range_map {α : Type} (f : Nat → α) (n i : Nat) (d : α) (hi : i < n) :
    ((List.range n).map f).getD i d = f i := by
  simp [List.getD_eq_getElem?_getD, List.getElem?_map, List.getElem?_range hi]

/-- Counterexample to claim C9: `getInputs()` does not return an array whose
length equals the input bank's size — its copy loop is hard-coded to 8
entries (source line 189), while the default bank holds 64. -/
theorem C9_getInputs_not_bank_sized_cex :
    (getInputs (SPS.new 64 64 64)).length = 8 ∧
      (SPS.new 64 64 64).numE = 64 ∧ (8 : Nat) ≠ 64 :=
  ⟨by decide, rfl, by decide⟩

/-- Claim C9 as amended: `getFlags()` snapshots the whole flag bank;
`getInputs()` copies only the first 8 entries regardless of bank size;
`getOutputs()` returns the output bank's current contents (in the source a
live reference to `this.#A`, not a copy).  When the data is stale and the
controller is Running it first triggers the catch-up scan — the returned
state is the post-scan state and the returned contents are the post-scan
outputs, with a scan exception propagating — and in every other case
(fresh data, or not Running) it returns the current contents directly
without scanning. -/
theorem C9_getter_semantics (st : SPSState) :
    (getFlags st).length = st.numM ∧
      (∀ i : Nat, i < st.numM → (getFlags st).getD i .undefined = st.banks.M (i : Int)) ∧
      (getInputs st).length = 8 ∧
      (∀ i : Nat, i < 8 → (getInputs st).getD i .undefined = st.banks.E (i : Int)) ∧
      (st.dataReady = false → st.state = 1 →
        getOutputs st =
          ((SPSRuntime st).1,
            match (SPSRuntime st).2 with
            | none =>
              .ok ((List.range (SPSRuntime st).1.numA).map
                (fun i : Nat => (SPSRuntime st).1.banks.A (i : Int)))
            | some e => .error e)) ∧
      (¬(st.dataReady = false ∧ st.state = 1) →
        getOutputs st =
          (st, .ok ((List.range st.numA).map (fun i : Nat => st.banks.A (i : Int))))) := by
  refine ⟨?_, ?_, ?_, ?_, ?_, ?_⟩
  · show ((List.range st.numM).map fun i : Nat => st.banks.M (i : Int)).length = st.numM
    rw [List.length_map, List.length_range]
  · intro i hi
    show ((List.range st.numM).map fun i : Nat => st.banks.M (i : Int)).getD i .undefined =
      st.banks.M (i : Int)
    exact getD_range_map _ _ _ _ hi
  · show ((List.range 8).map fun i : Nat => st.banks.E (i : Int)).length = 8
    rw [List.length_map, List.length_range]
  · intro i hi
    show ((List.range 8).map fun i : Nat => st.banks.E (i : Int)).getD i .undefined =
      st.banks.E (i : Int)
    exact getD_range_map _ _ _ _ hi
  · intro h1 h2
    unfold getOutputs
    rw [if_pos (by simp [h1, h2])]
    rcases hR : SPSRuntime st with ⟨st', oe⟩
    rcases oe with _ | e <;> simp [hR]
  · intro h
    unfold getOutputs
    have hc : ¬((!st.dataReady && st.state == 1) = true) := by
      simpa using h
    rw [if_neg hc]

/-- A controller whose data is fresh, for the C9 witness. -/
def c9Ready : SPSState :=
  { SPS.new 64 64 64 with dataReady := true }

/-- A Running controller with a loaded program and stale data, for the C9
witness of the catch-up-scan case. -/
def c9Stale : SPSState :=
  { (loadCode (SPS.new 64 64 64) (.inl ("U E1\n= A1"))).1 with state := 1 }

/-- Witness for C9: the getter-semantics theorem applied at concrete
controllers — a fresh one answered directly, and a stale Running one
answered through the catch-up scan (post-scan state and outputs). -/
theorem C9_getter_semantics_witness :
    (getFlags c9Ready).getD 0 .undefined = c9Ready.banks.M ((0 : Nat) : Int) ∧
      getOutputs c9Ready =
        (c9Ready, .ok ((List.range c9Ready.numA).map (fun i : Nat => c9Ready.banks.A (i : Int)))) ∧
      getOutputs c9Stale =
        ((SPSRuntime c9Stale).1,
          .ok ((List.range (SPSRuntime c9Stale).1.numA).map
            (fun i : Nat => (SPSRuntime c9Stale).1.banks.A (i : Int)))) :=
  ⟨(C9_getter_semantics c9Ready).2.1 0 (by decide),
   (C9_getter_semantics c9Ready).2.2.2.2.2 (by decide),
   (C9_getter_semantics c9Stale).2.2.2.2.1 rfl rfl⟩

/-- Claim C10, evaluated against the code.  The range test
`delay > 10 || delay < 1000` is true for **every** integer, so
`setCycleTime` always updates the cycle time and returns 0 — including for
delays the claim says must be rejected, such as 5 or 2000. -/
theorem C10_setCycleTime_accepts_every_delay :
    (∀ (st : SPSState) (d : Int), setCycleTime st d = ({ st with SPSCycleTime := d }, 0)) ∧
      (setCycleTime (SPS.new 64 64 64) 5).2 = 0 ∧
      (setCycleTime (SPS.new 64 64 64) 5).1.SPSCycleTime = 5 ∧
      (setCycleTime (SPS.new 64 64 64) 2000).2 = 0 := by
  refine ⟨?_, rfl, rfl, rfl⟩
  intro st d
  unfold setCycleTime
  rw [if_pos (show d > 10 ∨ d < 1000 by omega)]

end WebSPS
